import Mathlib

/-!
A shallow embedding of the review-classification pipeline of
mozilla/play-store-analysis (src/generate.py, src/lib/utils.py,
src/lib/validation.py, src/lib/openai.py, src/config.py), together with
theorems settling the specification claims about it.

Modelling conventions:
* Python strings are Lean `String`s; `str` methods (`isupper`, `isalnum`,
  `lower`, `strip`, `split`, `replace`) are modelled on their ASCII
  behaviour, which is what the repository's data and string literals
  exercise.
* `pandas.DataFrame`s are modelled as lists of typed rows, in row order;
  submission timestamps are modelled at day granularity as proleptic
  Gregorian day numbers (see `toDayNumber`), matching the `.date()`
  truncation that the validation code applies before comparing.
* The unreliable LLM backend is modelled as an oracle function, so that
  theorems quantify over every possible backend behaviour; the prompt
  text built by `src/lib/openai.py` does not influence any control flow
  in the repository and is not reproduced.
* Logging calls are side-effect free observations and are dropped; values
  that the source computes only in order to log them are kept as unused
  bindings where they clarify the control flow.
-/

namespace PlayStore

/-! ## Python string primitives

The embedding re-implements the `str` methods it needs on the character
sequence (`String.data`) with plain structural recursion, on their ASCII
behaviour. -/

/-- Python `\s` on ASCII text (also the character class stripped by
`str.strip()`): space, tab, newline, carriage return, form feed,
vertical tab. -/
def isPyWhitespace (c : Char) : Bool :=
  c == ' ' || c == '\t' || c == '\n' || c == '\r' || c == '\x0b' || c == '\x0c'

/-- Python `s.split(sep)` for a one-character separator. -/
def pySplit (s : String) (sep : Char) : List String :=
  (s.data.splitOn sep).map String.mk

/-- Python `s.strip()`: remove leading and trailing whitespace. -/
def pyStrip (s : String) : String :=
  String.mk (((s.data.dropWhile isPyWhitespace).reverse.dropWhile isPyWhitespace).reverse)

/-- Python `s.lower()` (ASCII model). -/
def pyLower (s : String) : String :=
  String.mk (s.data.map Char.toLower)

/-- The numeric value of a non-empty all-digit character sequence (the
accepting cases of `int(s)` as `strptime` uses it). -/
def digitsVal (l : List Char) : Option Nat :=
  if l ≠ [] ∧ l.all Char.isDigit then
    some (l.foldl (fun a c => a * 10 + (c.toNat - 48)) 0)
  else none

/-! ## Calendar arithmetic

`datetime.strptime(_, "%Y-%m-%d")`, `datetime.date.fromisoformat`,
`timedelta(days = k)` and `strftime("%Y-%m-%d")` from src/lib/utils.py and
src/lib/validation.py are modelled with day numbers in the proleptic
Gregorian calendar (0001-01-01 is day 0, the first representable date of
Python's `datetime`). -/

/-- Leap-year rule of the proleptic Gregorian calendar, as used by
Python's `datetime`. -/
def isLeapYear (y : Nat) : Bool :=
  (y % 4 == 0 && y % 100 != 0) || y % 400 == 0

/-- Number of days of month `m` (1-12) in year `y`. -/
def daysInMonth (y m : Nat) : Nat :=
  if m == 2 then (if isLeapYear y then 29 else 28)
  else if m == 4 || m == 6 || m == 9 || m == 11 then 30
  else 31

/-- Days of year `y` that precede the first day of month `m` (1-12). -/
def daysBeforeMonth (y m : Nat) : Nat :=
  let table : List Nat := [0, 31, 59, 90, 120, 151, 181, 212, 243, 273, 304, 334]
  table.getD (m - 1) 0 + (if 3 ≤ m && isLeapYear y then 1 else 0)

/-- Day number of the Gregorian date `y-m-d`, with 0001-01-01 mapped to 0. -/
def toDayNumber (y m d : Nat) : Nat :=
  365 * (y - 1) + (y - 1) / 4 + (y - 1) / 400 - (y - 1) / 100
    + daysBeforeMonth y m + (d - 1)

/-- Inverse of `toDayNumber`: the Gregorian date `(y, m, d)` of a day
number (civil-from-days on a 400-year era). -/
def civilFromDays (n : Nat) : Nat × Nat × Nat :=
  let z := n + 306
  let era := z / 146097
  let doe := z % 146097
  let yoe := (doe - doe / 1460 + doe / 36524 - doe / 146096) / 365
  let y := yoe + era * 400
  let doy := doe - (365 * yoe + yoe / 4 - yoe / 100)
  let mp := (5 * doy + 2) / 153
  let d := doy - (153 * mp + 2) / 5 + 1
  let m := if mp < 10 then mp + 3 else mp - 9
  (if m ≤ 2 then y + 1 else y, m, d)

/-- Parse a `"YYYY-MM-DD"` string to a day number, as
`datetime.strptime(s, "%Y-%m-%d")` / `date.fromisoformat` do: the month,
day and year must exist in Python's `datetime` range (years 1-9999);
anything else raises, which is modelled by `none`. -/
def parseDate (s : String) : Option Nat :=
  match (pySplit s '-').map (fun part => digitsVal part.data) with
  | [some y, some m, some d] =>
    if 1 ≤ y && y ≤ 9999 && 1 ≤ m && m ≤ 12 && 1 ≤ d && d ≤ daysInMonth y m then
      some (toDayNumber y m d)
    else none
  | _ => none

/-- Left-pad the decimal representation of `n` with zeros to width `w`. -/
def padZeros (w n : Nat) : String :=
  let s := toString n
  String.mk (List.replicate (w - s.length) '0') ++ s

/-- Render a day number as `"YYYY-MM-DD"`, as `strftime("%Y-%m-%d")` does. -/
def formatDate (n : Nat) : String :=
  match civilFromDays n with
  | (y, m, d) => padZeros 4 y ++ "-" ++ padZeros 2 m ++ "-" ++ padZeros 2 d

/-! ## Summary log and window derivation (src/lib/utils.py
`get_next_date_range`, src/generate.py `verify_date_range`) -/

/-- One entry of the summary log, restricted to the fields the window
logic reads (`startDate`, `endDate`). -/
structure SummaryRecord where
  startDate : String
  endDate : String
  deriving DecidableEq

/-- src/lib/utils.py lines 106-128 (`get_next_date_range`): derive the
next window from the last summary entry.  An empty log raises
`ValueError`; a missing or unparseable `startDate` re-raises.  Note the
source reads only `startDate` of the last entry and computes
`next_start = last_start + 7 days`, `next_end = next_start + 6 days`. -/
def getNextDateRange (summaryData : List SummaryRecord) : Except String (String × String) :=
  match summaryData.getLast? with
  | none => .error "Empty summary data"
  | some last =>
    match parseDate last.startDate with
    | none => .error "Invalid or missing startDate in JSON"
    | some lastStart =>
      let nextStart := lastStart + 7
      let nextEnd := nextStart + 6
      .ok (formatDate nextStart, formatDate nextEnd)

/-- src/generate.py lines 151-154: reject a requested window that is
already present in the summary log. -/
def checkDuplicateWindow (startDate endDate : String) (summaryData : List SummaryRecord) :
    Except String (String × String) :=
  if summaryData.any (fun entry => entry.startDate == startDate && entry.endDate == endDate) then
    .error "window already exists in summary file"
  else
    .ok (startDate, endDate)

/-- src/generate.py lines 133-157 (`verify_date_range`): both date flags,
neither (derive from the summary log), or an error; then the duplicate
check. -/
def verifyDateRange (startArg endArg : Option String) (summaryData : List SummaryRecord) :
    Except String (String × String) :=
  match startArg, endArg with
  | none, none =>
    match getNextDateRange summaryData with
    | .error e => .error e
    | .ok (s, e) => checkDuplicateWindow s e summaryData
  | some s, some e => checkDuplicateWindow s e summaryData
  | _, _ => .error "startDate and endDate must be supplied together (or neither)"

/-! ## Batch-level date-range assertion (src/lib/validation.py
`validate_date_range`) -/

/-- src/lib/validation.py lines 67-90 (`validate_date_range`).  The rows'
submission timestamps are given in dataframe row order, already truncated
to dates (`.date()`), as day numbers.  The source takes
`reviews_start = iloc[-1]` (the LAST row) and `reviews_end = iloc[0]`
(the FIRST row); any exception (unparseable expected dates, or `iloc` on
an empty frame) is caught and yields `False`. -/
def validateDateRange (rowDates : List Nat) (startDate endDate : String) : Bool :=
  match parseDate startDate, parseDate endDate with
  | some expectedStart, some expectedEnd =>
    match rowDates.getLast?, rowDates.head? with
    | some reviewsStart, some reviewsEnd =>
      reviewsStart == expectedStart && reviewsEnd == expectedEnd
    | _, _ => false
  | _, _ => false

/-! ## Row-level validation (src/lib/validation.py `validate_review_data`) -/

/-- One raw review row with the eight required columns of the ingestion
contract.  `Star_Rating` is an integer; `Review_Text` is nullable
(`None`/`NaN` is `none`); the submission timestamp is the raw string
still to be parsed. -/
structure RawRow where
  packageName : String
  appVersionName : String
  reviewerLanguage : String
  device : String
  reviewSubmitDateAndTime : String
  starRating : Int
  reviewText : Option String
  reviewLink : String
  deriving DecidableEq

/-- A validated review row: like `RawRow` but with the submission
timestamp replaced by its parsed value (the `pd.to_datetime` coercion the
source applies in place), modelled at day granularity. -/
structure CleanRow where
  packageName : String
  appVersionName : String
  reviewerLanguage : String
  device : String
  reviewSubmitDate : Nat
  starRating : Int
  reviewText : Option String
  reviewLink : String
  deriving DecidableEq

/-- A review dataframe: the set of columns it carries plus its rows in
order.  Rows always carry all eight fields; `cols` records which columns
the upstream producer actually delivered, which is what the schema check
inspects. -/
structure ReviewFrame where
  cols : List String
  rows : List RawRow
  deriving DecidableEq

/-- src/lib/validation.py lines 13-16: the required columns. -/
def requiredColumns : List String :=
  ["Package_Name", "App_Version_Name", "Reviewer_Language", "Device",
   "Review_Submit_Date_and_Time", "Star_Rating", "Review_Text", "Review_Link"]

/-- Pandas `reviews['Star_Rating'].between(1, 5)` — inclusive on both ends. -/
def ratingValid (r : RawRow) : Bool :=
  1 ≤ r.starRating && r.starRating ≤ 5

/-- Pandas `reviews['Review_Text'].notna() & (reviews['Review_Text'].str.strip() != '')`. -/
def textValid (r : RawRow) : Bool :=
  match r.reviewText with
  | none => false
  | some t => pyStrip t != ""

/-- Parse the timestamp of a row and store the result in place, as the
`pd.to_datetime(..., errors='coerce')` column assignment does; a failed
parse becomes `none` (NaT).  The embedding is parametric in the timestamp
parser `parseTs` standing for `pd.to_datetime` on one value. -/
def coerceRow (parseTs : String → Option Nat) (r : RawRow) : Option Nat × CleanRow :=
  let ts := parseTs r.reviewSubmitDateAndTime
  (ts, { packageName := r.packageName, appVersionName := r.appVersionName,
         reviewerLanguage := r.reviewerLanguage, device := r.device,
         reviewSubmitDate := ts.getD 0, starRating := r.starRating,
         reviewText := r.reviewText, reviewLink := r.reviewLink })

/-- src/lib/validation.py lines 11-64 (`validate_review_data`): schema
check (missing columns raise `ValueError` for the whole batch), then the
three sequential row filters (invalid rating, null/blank text, timestamp
that fails to parse), then `reset_index(drop := true)`, modelled by
pairing the surviving rows with fresh dense indices (`List.enum`).  An
empty frame is returned as is (before any filtering). -/
def validateReviewData (parseTs : String → Option Nat) (df : ReviewFrame) :
    Except (List String) (List (Nat × CleanRow)) :=
  let missingColumns := requiredColumns.filter (fun c => !(df.cols.contains c))
  if missingColumns.isEmpty then
    if df.rows.isEmpty then
      .ok []
    else
      let afterRating := df.rows.filter ratingValid
      let afterText := afterRating.filter textValid
      let coerced := afterText.map (coerceRow parseTs)
      let afterDates := coerced.filter (fun p => p.1.isSome)
      .ok (afterDates.map Prod.snd).enum
  else
    .error missingColumns

/-! ## Classification gateway (src/lib/openai.py, src/config.py) -/

/-- src/config.py: `MAX_RETRIES = 3`. -/
def MAX_RETRIES : Nat := 3

/-- The backend (`self.client.chat.completions.create` followed by
`completion.choices[0].message.content`): per attempt number, either an
exception (`.error`) or the returned message content (`.ok`).  `None`
content is modelled as the empty string, which Python's `not content`
treats identically. -/
def Backend : Type := Nat → Except String String

/-- The loop body of `_make_api_call_with_retry` (src/lib/openai.py lines
22-39): `fuel` is the number of loop iterations still available,
`attempt` the current attempt number.  On the last available attempt a
failure re-raises the exception; line 39 (unreachable for positive
`MAX_RETRIES`) raises its own error.  The `time.sleep` calls (rate limit
and exponential backoff) do not affect values and are dropped. -/
def retryLoop (backend : Backend) : Nat → Nat → Except String String
  | 0, _ => .error "Unexpected error in API retry logic"
  | fuel + 1, attempt =>
    match backend attempt with
    | .ok completion => .ok completion
    | .error e => if fuel == 0 then .error e else retryLoop backend fuel (attempt + 1)

/-- src/lib/openai.py lines 22-39 (`_make_api_call_with_retry`). -/
def makeApiCallWithRetry (backend : Backend) : Except String String :=
  retryLoop backend MAX_RETRIES 0

/-- The opening tag `"<think>"` as a character list. -/
def openTagChars : List Char := "<think>".data

/-- The closing tag `"</think>"` as a character list. -/
def closeTagChars : List Char := "</think>".data

/-- Scan for the nearest `"</think>"` and return the suffix after it
(the non-greedy `.*?</think>` of the reasoning-stripping regex). -/
def afterCloseTag : List Char → Option (List Char)
  | [] => none
  | c :: cs =>
    if closeTagChars.isPrefixOf (c :: cs) then some (List.drop 8 (c :: cs))
    else afterCloseTag cs

/-- Character-level worker for `stripThink`.  At each position: if
`"<think>"` starts here and a `"</think>"` follows, delete through the
nearest close tag plus the trailing whitespace run (`\s*`) and continue
scanning after the deleted span, as `re.sub` does; if no close tag ever
follows, no further match is possible and the rest is kept. -/
def stripThinkGo : Nat → List Char → List Char
  | 0, cs => cs
  | _ + 1, [] => []
  | fuel + 1, c :: cs =>
    if openTagChars.isPrefixOf (c :: cs) then
      match afterCloseTag (List.drop 7 (c :: cs)) with
      | some rest => stripThinkGo fuel (rest.dropWhile isPyWhitespace)
      | none => c :: cs
    else c :: stripThinkGo fuel cs

/-- Model of `re.sub(r"<think>.*?</think>\s*", "", content, flags = re.DOTALL)`
from src/lib/openai.py lines 63 and 145. -/
def stripThink (content : String) : String :=
  String.mk (stripThinkGo content.data.length content.data)

/-- src/lib/openai.py lines 41-68 (`translate`): call with retry, raise
`ValueError("Empty response from OpenAI API")` on empty content, then
strip reasoning markup and return.  Note the emptiness check inspects the
raw content, before the markup is stripped.  The prompt built from
`srcLang`, `dstLang` and `text` does not affect the control flow and is
not reproduced. -/
def openaiTranslate (backend : Backend) (srcLang dstLang text : String) :
    Except String String :=
  match makeApiCallWithRetry backend with
  | .error e => .error e
  | .ok content =>
    if content == "" then .error "Empty response from OpenAI API"
    else .ok (stripThink content)

/-- src/lib/openai.py lines 70-150 (`classify`): identical result flow to
`translate`; the classification prompt (rating, vocabulary, examples)
does not affect the control flow and is not reproduced. -/
def openaiClassify (backend : Backend) (rating : Int) (text : String) :
    Except String String :=
  match makeApiCallWithRetry backend with
  | .error e => .error e
  | .ok content =>
    if content == "" then .error "Empty response from OpenAI API"
    else .ok (stripThink content)

/-! ## Entity (website) detection (src/lib/utils.py `WEBSITE_PATTERNS`,
`detect_websites_in_text`)

The regular expressions of `WEBSITE_PATTERNS` use only literal characters
(including escaped dots), the whitespace class `\s` (plain and optional),
an optional literal character (`s?`), and word boundaries `\b`.  They are
embedded as sequences of the items below and run by a direct matcher. -/

/-- One item of an embedded pattern. -/
inductive PatItem where
  /-- A literal character (also covers escaped dots). -/
  | lit (c : Char)
  /-- Item `\s`: exactly one whitespace character. -/
  | wsOne
  /-- Item `\s?`: an optional whitespace character. -/
  | optWs
  /-- Item `c?`: an optional literal character. -/
  | optChar (c : Char)
  /-- Item `\b`: a word boundary (consumes nothing). -/
  | bound
  deriving DecidableEq

/-- Python `\w` on ASCII text: letters, digits, underscore. -/
def isWordChar (c : Char) : Bool :=
  c.isAlphanum || c == '_'

/-- Whether position `i` of `s` holds a word character (out of range is
not a word character). -/
def wordAt (s : List Char) (i : Nat) : Bool :=
  match s[i]? with
  | some c => isWordChar c
  | none => false

/-- Boundary `\b` holds at position `i`: the previous position and the current one
disagree on word-character-ness (before the start counts as non-word). -/
def boundaryAt (s : List Char) (i : Nat) : Bool :=
  (if i == 0 then false else wordAt s (i - 1)) != wordAt s i

/-- Match a pattern against `s` starting at position `i`. -/
def matchAt (s : List Char) : Nat → List PatItem → Bool
  | _, [] => true
  | i, .lit c :: ps =>
    match s[i]? with
    | some c0 => c0 == c && matchAt s (i + 1) ps
    | none => false
  | i, .wsOne :: ps =>
    match s[i]? with
    | some c0 => isPyWhitespace c0 && matchAt s (i + 1) ps
    | none => false
  | i, .optWs :: ps =>
    (match s[i]? with
     | some c0 => isPyWhitespace c0 && matchAt s (i + 1) ps
     | none => false) || matchAt s i ps
  | i, .optChar c :: ps =>
    (match s[i]? with
     | some c0 => c0 == c && matchAt s (i + 1) ps
     | none => false) || matchAt s i ps
  | i, .bound :: ps => boundaryAt s i && matchAt s i ps

/-- Model of `re.search`: the pattern matches somewhere in `s`. -/
def reSearch (s : List Char) (ps : List PatItem) : Bool :=
  (List.range (s.length + 1)).any (fun i => matchAt s i ps)

/-- The literal characters of `w` as pattern items. -/
def litItems (w : String) : List PatItem :=
  w.data.map PatItem.lit

/-- A `\b…\b`-delimited literal word (dots in `w` stand for escaped
dots). -/
def wordPat (w : String) : List PatItem :=
  PatItem.bound :: litItems w ++ [PatItem.bound]

/-- src/lib/utils.py lines 16-66 (`WEBSITE_PATTERNS`), in source
(dictionary insertion) order. -/
def websitePatterns : List (String × List (List PatItem)) :=
  [("YouTube",
    [wordPat "youtube", wordPat "yt", wordPat "youtube.com",
     PatItem.bound :: litItems "youtube" ++ [PatItem.wsOne],
     wordPat "youtubes", wordPat "youtub"]),
   ("Facebook",
    [wordPat "facebook", wordPat "fb", wordPat "facebook.com",
     PatItem.bound :: litItems "face" ++ [PatItem.optWs] ++ litItems "book" ++ [PatItem.bound],
     wordPat "facebooks"]),
   ("Instagram",
    [wordPat "instagram", wordPat "insta", wordPat "ig", wordPat "instagram.com",
     wordPat "instagrams"]),
   ("Twitter",
    [wordPat "twitter", wordPat "twitter.com", wordPat "x.com",
     PatItem.bound :: litItems "tweet" ++ [PatItem.optChar 's', PatItem.bound],
     wordPat "twitting"]),
   ("TikTok",
    [wordPat "tiktok",
     PatItem.bound :: litItems "tik" ++ [PatItem.optWs] ++ litItems "tok" ++ [PatItem.bound],
     wordPat "tiktok.com"]),
   ("Netflix", [wordPat "netflix", wordPat "netflix.com"]),
   ("Reddit", [wordPat "reddit", wordPat "reddit.com", wordPat "subreddit"]),
   ("Google", [wordPat "google", wordPat "google.com", wordPat "googling"]),
   ("Amazon", [wordPat "amazon", wordPat "amazon.com", wordPat "amzn"]),
   ("WhatsApp",
    [wordPat "whatsapp",
     PatItem.bound :: litItems "whats" ++ [PatItem.optWs] ++ litItems "app" ++ [PatItem.bound],
     wordPat "wa"]),
   ("Spotify", [wordPat "spotify", wordPat "spotify.com"]),
   ("Discord", [wordPat "discord", wordPat "discord.com"]),
   ("Twitch", [wordPat "twitch", wordPat "twitch.tv"]),
   ("LinkedIn", [wordPat "linkedin", wordPat "linkedin.com"]),
   ("Pinterest", [wordPat "pinterest", wordPat "pinterest.com"])]

/-- src/lib/utils.py lines 227-245 (`detect_websites_in_text`): empty
text detects nothing; otherwise each website whose pattern list has a
match in the lowercased text is collected (the inner `break` after the
first matching pattern is `List.any`).  The source collects into a
`set`; since the site names are pairwise distinct, the list below (in
source dictionary order) carries the same elements without duplicates. -/
def detectWebsitesInText (text : String) : List String :=
  if text == "" then []
  else
    let textLower := (pyLower text).data
    websitePatterns.filterMap
      (fun wp => if wp.2.any (fun p => reSearch textLower p) then some wp.1 else none)

/-! ## Classification enhancement (src/lib/utils.py
`enhance_classification_with_websites`) and the entity-token predicates -/

/-- First-occurrence deduplication, modelling the construction of a
Python `set` from a list.  (CPython iterates a `set` of strings in an
unspecified, hash-dependent order; this embedding fixes first-occurrence
order.  Every theorem below that involves such a set only uses
membership, deduplication, and the relative order of whole groups, all of
which are independent of the iteration order chosen.) -/
def dedupFirst : List String → List String
  | [] => []
  | x :: xs => x :: (dedupFirst xs).filter (fun y => y != x)

/-- The `current_categories` set of
`enhance_classification_with_websites` (src/lib/utils.py line 263):
`set(cat.strip() for cat in classification.split(','))`. -/
def currentTokens (classification : String) : List String :=
  dedupFirst ((pySplit classification ',').map pyStrip)

/-- The `missing_websites` set of
`enhance_classification_with_websites` (src/lib/utils.py line 269):
`detected_websites - current_categories`. -/
def missingTokens (classification reviewText : String) : List String :=
  (detectWebsitesInText reviewText).filter (fun w => !(currentTokens classification).contains w)

/-- src/lib/utils.py lines 248-277
(`enhance_classification_with_websites`): an empty classification or an
empty text is returned unchanged; otherwise the missing detected websites
(`detected - current`) are appended after the current tokens, everything
joined with `", "`; when nothing is missing the original string is
returned unchanged. -/
def enhanceClassificationWithWebsites (classification reviewText : String) : String :=
  if classification == "" || reviewText == "" then classification
  else if (missingTokens classification reviewText).isEmpty then classification
  else String.intercalate ", " (currentTokens classification ++ missingTokens classification reviewText)

/-- Python `s.replace(c, '')` for a single character, on the character
sequence: delete every occurrence of `c`. -/
def pyDeleteChar (l : List Char) (c : Char) : List Char :=
  l.filter (fun c0 => c0 != c)

/-- Python `str.isalnum()` on the character sequence: non-empty and every
character alphanumeric (ASCII model). -/
def pyIsAlnum (l : List Char) : Bool :=
  !l.isEmpty && l.all Char.isAlphanum

/-- src/lib/utils.py lines 215-224 (`_is_valid_website_category`), the
predicate used when grouping classifications: non-empty, first character
uppercase, no space, length 2-20, and alphanumeric after deleting every
`'.'` and `'-'`. -/
def isValidWebsiteCategory (category : String) : Bool :=
  match category.data with
  | [] => false
  | c0 :: _ =>
    c0.isUpper && !(category.data.contains ' ') &&
    decide (2 ≤ category.data.length) && decide (category.data.length ≤ 20) &&
    pyIsAlnum (pyDeleteChar (pyDeleteChar category.data '.') '-')

/-- src/lib/validation.py lines 112-121 (`_is_website_category`), the
predicate used when validating model output: identical to
`isValidWebsiteCategory` except that only `'.'` is deleted before the
alphanumeric check, so `'-'` is NOT tolerated. -/
def isWebsiteCategory (category : String) : Bool :=
  match category.data with
  | [] => false
  | c0 :: _ =>
    c0.isUpper && !(category.data.contains ' ') &&
    decide (2 ≤ category.data.length) && decide (category.data.length ≤ 20) &&
    pyIsAlnum (pyDeleteChar category.data '.')

/-- src/lib/validation.py lines 93-109 (`validate_classification`): an
empty classification yields `False`; otherwise the tokens outside both
the closed vocabulary and the website predicate are computed only to be
logged, and the function returns `True` unconditionally. -/
def validateClassification (classification : String) (validCategories : List String) : Bool :=
  if classification == "" then false
  else
    let categories := (pySplit classification ',').map pyStrip
    let _invalidCategories :=
      categories.filter (fun cat =>
        !(validCategories.contains cat) && !(isWebsiteCategory cat))
    true

/-! ## The per-review classification loop (src/generate.py
`classify_reviews`) -/

/-- One review row as the classification loop sees it, restricted to the
fields the loop reads and writes.  `classification` starts absent (the
`Classification` column does not exist before the loop writes it). -/
structure PipelineRow where
  starRating : Int
  reviewerLanguage : String
  reviewText : String
  translatedText : Option String
  classification : Option String
  deriving DecidableEq

/-- The translation gateway call as the loop observes it, indexed by the
row index and the call arguments (source language, target language,
text): an exception or the translated text. -/
def TranslateOracle : Type := Nat → String → String → String → Except String String

/-- The classification gateway call as the loop observes it, indexed by
the row index and the call arguments (rating, text). -/
def ClassifyOracle : Type := Nat → Int → String → Except String String

/-- The text handed to `model.classify` for row `i` (src/generate.py
lines 63-78): the translation when the language is not `"en"` and the
translate call succeeds, the raw original text otherwise. -/
def textForClassification (tOr : TranslateOracle) (i : Nat) (r : PipelineRow) : String :=
  if r.reviewerLanguage != "en" then
    match tOr i r.reviewerLanguage "en" r.reviewText with
    | .ok t => t
    | .error _ => r.reviewText
  else r.reviewText

/-- The body of the loop of src/generate.py lines 56-92 for row `i`:
translate if needed (storing the translation on success, keeping the
original text on failure), then classify, storing the returned label on
success and the literal `"Other"` on failure.  On success the source also
calls `validate_classification` (lines 87-88), whose result is only
logged and affects nothing; no other function is invoked on the stored
classification. -/
def processReview (tOr : TranslateOracle) (cOr : ClassifyOracle) (i : Nat)
    (r : PipelineRow) : PipelineRow :=
  let text := textForClassification tOr i r
  let translated :=
    if r.reviewerLanguage != "en" then
      match tOr i r.reviewerLanguage "en" r.reviewText with
      | .ok t => some t
      | .error _ => r.translatedText
    else r.translatedText
  match cOr i r.starRating text with
  | .ok classification => { r with translatedText := translated, classification := some classification }
  | .error _ => { r with translatedText := translated, classification := some "Other" }

/-- The loop of `classify_reviews`, carrying the running row index. -/
def classifyReviewsGo (tOr : TranslateOracle) (cOr : ClassifyOracle) :
    Nat → List PipelineRow → List PipelineRow
  | _, [] => []
  | i, r :: rs => processReview tOr cOr i r :: classifyReviewsGo tOr cOr (i + 1) rs

/-- src/generate.py lines 51-95 (`classify_reviews`): process every row
in order, starting at index 0. -/
def classifyReviews (tOr : TranslateOracle) (cOr : ClassifyOracle)
    (reviews : List PipelineRow) : List PipelineRow :=
  classifyReviewsGo tOr cOr 0 reviews

/-! ## Summary entry (src/lib/utils.py `create_summary_entry`) -/

/-- A classified review as the summary counter reads it (`Star_Rating`
and the final, non-null `Classification`). -/
structure SummaryRow where
  starRating : Int
  classification : String
  deriving DecidableEq

/-- The summary entry (one element of the summary log JSON array).
`ratings` is the `rating_counts` dictionary with keys 1-5. -/
structure SummaryEntry where
  startDate : String
  endDate : String
  file : String
  positiveCount : Nat
  negativeCount : Nat
  categories : List (String × Nat)
  ratings : Int → Nat

/-- One iteration of the counting loop of src/lib/utils.py lines 176-188:
update the rating histogram (`if rating in rating_counts`), then the
positive/negative precedence (`Satisfied` case-insensitively, else rating
at most 3, else any label other than `Other` case-insensitively, else
neither). -/
def summaryStep (acc : Nat × Nat × (Int → Nat)) (r : SummaryRow) : Nat × Nat × (Int → Nat) :=
  let ratingCounts :=
    if 1 ≤ r.starRating && r.starRating ≤ 5 then
      fun k => if k == r.starRating then acc.2.2 k + 1 else acc.2.2 k
    else acc.2.2
  if pyLower r.classification == "satisfied" then
    (acc.1 + 1, acc.2.1, ratingCounts)
  else if r.starRating ≤ 3 then
    (acc.1, acc.2.1 + 1, ratingCounts)
  else if pyLower r.classification != "other" then
    (acc.1, acc.2.1 + 1, ratingCounts)
  else
    (acc.1, acc.2.1, ratingCounts)

/-- src/lib/utils.py lines 163-212 (`create_summary_entry`): run the
counting loop over the reviews, then assemble the entry; the per-category
counts are the sizes of the grouped-report buckets. -/
def createSummaryEntry {α : Type} (reviews : List SummaryRow)
    (groupedData : List (String × List α)) (startDate endDate : String) : SummaryEntry :=
  let counts := reviews.foldl summaryStep (0, 0, fun _ => 0)
  { startDate := startDate
    endDate := endDate
    file := "results-" ++ startDate ++ "-to-" ++ endDate ++ ".json"
    positiveCount := counts.1
    negativeCount := counts.2.1
    categories := groupedData.map (fun g => (g.1, g.2.length))
    ratings := counts.2.2 }

/-! ## Specification-side definitions

The definitions below restate, in claim-level vocabulary, the properties
the specification asserts; the theorems compare them against the source
embeddings above. -/

/-- The positive-review rule of the specification: the whole
classification string equals `"Satisfied"` case-insensitively. -/
def isPositiveReview (r : SummaryRow) : Bool :=
  pyLower r.classification == "satisfied"

/-- The negative-review rule of the specification: not positive, and
either the rating is at most 3 or the label is not `"Other"`
case-insensitively. -/
def isNegativeReview (r : SummaryRow) : Bool :=
  !isPositiveReview r &&
    (decide (r.starRating ≤ 3) || pyLower r.classification != "other")

/-- A surviving row according to the specification of the row-level
cleaning: rating in [1,5], text present and non-blank after trimming,
timestamp parseable. -/
def keepRow (parseTs : String → Option Nat) (r : RawRow) : Bool :=
  ratingValid r && textValid r && (parseTs r.reviewSubmitDateAndTime).isSome

/-- The entity-token structural rule as the specification states it,
parameterized by the extra characters tolerated beside alphanumerics:
length between 2 and 20, first character an uppercase letter, no
whitespace anywhere, and every character alphanumeric or one of
`extraChars`. -/
def entityTokenSpec (extraChars : List Char) (s : String) : Prop :=
  2 ≤ s.data.length ∧ s.data.length ≤ 20 ∧
  s.data.head?.map Char.isUpper = some true ∧
  (∀ ch ∈ s.data, ch.isWhitespace = false) ∧
  (∀ ch ∈ s.data, ch.isAlphanum = true ∨ ch ∈ extraChars)

/-- A backend whose every attempt throws, with a distinct message per
attempt (used to observe which error is propagated). -/
def failBackend : Backend :=
  fun i => .error (if i == 0 then "e0" else if i == 1 then "e1" else "e2")

/-- A backend that always answers with empty content. -/
def emptyBackend : Backend :=
  fun _ => .ok ""

/-- A backend whose (non-empty) answer consists solely of a reasoning
block. -/
def thinkOnlyBackend : Backend :=
  fun _ => .ok "<think>internal reasoning</think>"

/-- A classify oracle that fails on row 0 and answers `"Crash"`
elsewhere (used by the classification-loop witnesses). -/
def mixedClassifyOracle : ClassifyOracle :=
  fun i _ _ => if i == 0 then .error "down" else .ok "Crash"

/-- A translate oracle that always fails. -/
def failTranslateOracle : TranslateOracle :=
  fun _ _ _ _ => .error "net down"

/-! ## Theorems -/

/-! ### C10 — `validate_classification` never rejects a non-empty
classification -/

/-- Claim C10: for every non-empty classification string,
`validate_classification` returns `True` regardless of the vocabulary and
of whether the comma-separated tokens pass any validity test (unknown
tokens are only logged); it returns `False` exactly when the string is
empty. -/
theorem validate_classification_only_rejects_empty (c : String) (v vAlt : List String) :
    validateClassification c v = validateClassification c vAlt ∧
    (validateClassification c v = true ↔ ¬ c = "") := by
  by_cases h : c = "" <;> simp [validateClassification, h]

/-! ### C3 — the batch-level date-range assertion -/

/-- Claim C3 (counterexample): the claim says `validate_date_range`
compares the true minimum and maximum surviving timestamps with the
window bounds regardless of row order.  On the batch whose rows are in
ascending timestamp order [2024-01-01, 2024-01-07] with the matching
expected window, the true minimum and maximum agree with the bounds, yet
the source compares `iloc[-1]` with the start and `iloc[0]` with the end
and reports failure. -/
theorem validate_date_range_order_counterexample :
    validateDateRange [738885, 738891] "2024-01-01" "2024-01-07" = false ∧
    parseDate "2024-01-01" = some 738885 ∧
    parseDate "2024-01-07" = some 738891 ∧
    [738885, 738891].min? = some 738885 ∧
    [738885, 738891].max? = some 738891 := by
  refine ⟨by decide, by decide, by decide, by decide, by decide⟩

/-- Claim C3 (amended): `validate_date_range` succeeds exactly when both
window bounds parse and the LAST row's date equals the start bound while
the FIRST row's date equals the end bound (so it checks the true
min/max only on batches sorted by descending timestamp, the order the
BigQuery ingestion produces); on an empty batch or unparseable bounds it
reports failure. -/
theorem validate_date_range_checks_first_last (rowDates : List Nat) (s e : String) :
    validateDateRange rowDates s e = true ↔
      ∃ expectedStart expectedEnd,
        parseDate s = some expectedStart ∧ parseDate e = some expectedEnd ∧
        rowDates.getLast? = some expectedStart ∧ rowDates.head? = some expectedEnd := by
  cases hs : parseDate s <;> cases he : parseDate e <;>
    cases hl : rowDates.getLast? <;> cases hh : rowDates.head? <;>
      simp [validateDateRange, hs, he, hl, hh]

/-! ### C4 — deriving the next window from the summary log -/

/-- Claim C4 (counterexample): the claim says the next window is
`[lastEnd + 1 day, lastEnd + 7 days]` for every parseable last entry.
For the last entry [2024-01-01, 2024-01-10] (a 10-day window) the source
derives [2024-01-08, 2024-01-14] from `startDate` alone, while
`lastEnd + 1/+ 7 days` would be [2024-01-11, 2024-01-17]. -/
theorem get_next_date_range_counterexample :
    getNextDateRange [⟨"2024-01-01", "2024-01-10"⟩] = .ok ("2024-01-08", "2024-01-14") ∧
    parseDate "2024-01-10" = some 738894 ∧
    formatDate (738894 + 1) = "2024-01-11" ∧
    formatDate (738894 + 7) = "2024-01-17" ∧
    ¬ (("2024-01-08", "2024-01-14") = (("2024-01-11", "2024-01-17") : String × String)) := by
  refine ⟨by rfl, by decide, by decide, by decide, by decide⟩

/-- Claim C4 (amended): for EVERY non-empty summary log whose last
entry's startDate parses, `get_next_date_range` derives the next window
from that startDate alone — the entry's endDate is never read — as
[lastStart + 7 days, lastStart + 13 days]; whenever the last entry spans
seven days (its endDate parses to startDate + 6 days) this coincides
with the [lastEnd + 1 day, lastEnd + 7 days] of the original claim (the
counterexample shows a non-seven-day entry on which the two rules
disagree). -/
theorem get_next_date_range_from_last_start (log : List SummaryRecord)
    (last : SummaryRecord) (lastStart : Nat)
    (hlast : log.getLast? = some last)
    (hs : parseDate last.startDate = some lastStart) :
    getNextDateRange log = .ok (formatDate (lastStart + 7), formatDate (lastStart + 13)) ∧
    (∀ lastEnd : Nat, parseDate last.endDate = some lastEnd → lastEnd = lastStart + 6 →
      getNextDateRange log = .ok (formatDate (lastEnd + 1), formatDate (lastEnd + 7))) := by
  constructor
  · rw [show lastStart + 13 = lastStart + 7 + 6 from by omega]
    simp only [getNextDateRange, hlast, hs]
  · intro lastEnd _ hweek
    subst hweek
    rw [show lastStart + 6 + 1 = lastStart + 7 from by omega,
      show lastStart + 6 + 7 = lastStart + 7 + 6 from by omega]
    simp only [getNextDateRange, hlast, hs]

/-- Witness for the amended C4: the general startDate-only derivation at
a last entry spanning sixteen days, and the seven-day coincidence at a
last entry spanning seven days. -/
theorem get_next_date_range_witness :
    getNextDateRange [⟨"2024-01-05", "2024-01-20"⟩] = .ok ("2024-01-12", "2024-01-18") ∧
    getNextDateRange [⟨"2024-01-01", "2024-01-07"⟩] = .ok ("2024-01-08", "2024-01-14") := by
  constructor
  · have h := (get_next_date_range_from_last_start [⟨"2024-01-05", "2024-01-20"⟩]
      ⟨"2024-01-05", "2024-01-20"⟩ 738889 (by rfl) (by decide)).1
    exact h.trans (by rfl)
  · have h := (get_next_date_range_from_last_start [⟨"2024-01-01", "2024-01-07"⟩]
      ⟨"2024-01-01", "2024-01-07"⟩ 738885 (by rfl) (by decide)).2 738891 (by decide) (by omega)
    exact h.trans (by rfl)

/-! ### C9 — gateway retry and error propagation -/

/-- Unrolling of `_make_api_call_with_retry` for the configured
`MAX_RETRIES = 3`. -/
theorem makeApiCallWithRetry_eq (b : Backend) :
    makeApiCallWithRetry b =
      match b 0 with
      | .ok c => .ok c
      | .error _ =>
        match b 1 with
        | .ok c => .ok c
        | .error _ => b 2 := by
  show retryLoop b 3 0 = _
  cases h0 : b 0 with
  | ok c => simp only [retryLoop, h0]
  | error e0 =>
    cases h1 : b 1 with
    | ok c =>
      simp only [retryLoop, h0, h1]
      rfl
    | error e1 =>
      cases h2 : b 2 with
      | ok c =>
        simp only [retryLoop, h0, h1, h2]
        rfl
      | error e2 =>
        simp only [retryLoop, h0, h1, h2]
        rfl

/-- Claim C9: for both `translate` and `classify`, (a) the result depends
only on the first `MAX_RETRIES = 3` backend attempts (at most 3 attempts
are consumed); (b) if all three attempts fail, the LAST error is
propagated to the caller and no default label is produced; (c) a
successful attempt whose content is empty is raised to the caller as a
failure. -/
theorem gateway_retry_spec (b bAlt : Backend) (srcLang dstLang text : String) (rating : Int) :
    ((∀ i, i < MAX_RETRIES → b i = bAlt i) →
      openaiTranslate b srcLang dstLang text = openaiTranslate bAlt srcLang dstLang text ∧
      openaiClassify b rating text = openaiClassify bAlt rating text) ∧
    (∀ e0 e1 e2, b 0 = .error e0 → b 1 = .error e1 → b 2 = .error e2 →
      openaiTranslate b srcLang dstLang text = .error e2 ∧
      openaiClassify b rating text = .error e2) ∧
    (∀ content, makeApiCallWithRetry b = .ok content → content = "" →
      openaiTranslate b srcLang dstLang text = .error "Empty response from OpenAI API" ∧
      openaiClassify b rating text = .error "Empty response from OpenAI API") := by
  refine ⟨?_, ?_, ?_⟩
  · intro hagree
    have h0 := hagree 0 (by decide)
    have h1 := hagree 1 (by decide)
    have h2 := hagree 2 (by decide)
    have hcall : makeApiCallWithRetry b = makeApiCallWithRetry bAlt := by
      rw [makeApiCallWithRetry_eq, makeApiCallWithRetry_eq, h0, h1, h2]
    constructor <;> simp only [openaiTranslate, openaiClassify, hcall]
  · intro e0 e1 e2 h0 h1 h2
    have hcall : makeApiCallWithRetry b = .error e2 := by
      rw [makeApiCallWithRetry_eq, h0, h1, h2]
    constructor <;> simp only [openaiTranslate, openaiClassify, hcall]
  · intro content hcall hempty
    subst hempty
    constructor <;> simp [openaiTranslate, openaiClassify, hcall]

/-- Witness for C9: a backend failing all three attempts propagates the
third attempt's error through both operations, and an empty-content
response is raised as the empty-response failure. -/
theorem gateway_retry_witness :
    openaiTranslate failBackend "de" "en" "text" = .error "e2" ∧
    openaiClassify failBackend 3 "text" = .error "e2" ∧
    openaiTranslate emptyBackend "de" "en" "text" = .error "Empty response from OpenAI API" ∧
    openaiClassify emptyBackend 3 "text" = .error "Empty response from OpenAI API" := by
  have h := gateway_retry_spec failBackend failBackend "de" "en" "text" 3
  have hEmpty := gateway_retry_spec emptyBackend emptyBackend "de" "en" "text" 3
  have hFail := h.2.1 "e0" "e1" "e2" rfl rfl rfl
  have hRaise := hEmpty.2.2 "" rfl rfl
  exact ⟨hFail.1, hFail.2, hRaise.1, hRaise.2⟩

/-! ### The classification loop: shared lemmas -/

theorem classifyReviewsGo_length (tOr : TranslateOracle) (cOr : ClassifyOracle) :
    ∀ (a : Nat) (revs : List PipelineRow),
      (classifyReviewsGo tOr cOr a revs).length = revs.length := by
  intro a revs
  induction revs generalizing a with
  | nil => rfl
  | cons r rs ih => simp [classifyReviewsGo, ih]

theorem classifyReviewsGo_getElem (tOr : TranslateOracle) (cOr : ClassifyOracle) :
    ∀ (a j : Nat) (revs : List PipelineRow),
      (classifyReviewsGo tOr cOr a revs)[j]? =
        (revs[j]?).map (processReview tOr cOr (a + j)) := by
  intro a j revs
  induction revs generalizing a j with
  | nil => simp [classifyReviewsGo]
  | cons r rs ih =>
    cases j with
    | zero => simp [classifyReviewsGo]
    | succ j =>
      have harith : a + 1 + j = a + (j + 1) := by omega
      simp [classifyReviewsGo, ih (a + 1) j, harith]

theorem classifyReviewsGo_mem (tOr : TranslateOracle) (cOr : ClassifyOracle) :
    ∀ (a : Nat) (revs : List PipelineRow) (rr : PipelineRow),
      rr ∈ classifyReviewsGo tOr cOr a revs →
      ∃ j r, r ∈ revs ∧ rr = processReview tOr cOr j r := by
  intro a revs rr hmem
  induction revs generalizing a with
  | nil => simp [classifyReviewsGo] at hmem
  | cons r rs ih =>
    simp only [classifyReviewsGo, List.mem_cons] at hmem
    rcases hmem with h | h
    · exact ⟨a, r, List.mem_cons_self r rs, h⟩
    · obtain ⟨j, r0, hr0, heq⟩ := ih (a + 1) h
      exact ⟨j, r0, List.mem_cons_of_mem r hr0, heq⟩

theorem processReview_classification (tOr : TranslateOracle) (cOr : ClassifyOracle)
    (i : Nat) (r : PipelineRow) :
    (processReview tOr cOr i r).classification =
      some (match cOr i r.starRating (textForClassification tOr i r) with
            | .ok c => c
            | .error _ => "Other") := by
  cases h : cOr i r.starRating (textForClassification tOr i r) <;>
    simp [processReview, h]

/-! ### C2 — every review leaves the stage classified, with the
`"Other"` fallback -/

/-- Claim C2 (counterexample): the claim says the `Classification` field
is non-empty for every review after the stage.  When the backend's
(non-empty) response consists solely of a reasoning block, the gateway's
emptiness check — which inspects the raw content BEFORE the markup is
stripped — passes, `classify` succeeds with the empty string, and the
loop stores an empty classification. -/
theorem classification_can_be_empty :
    openaiClassify thinkOnlyBackend 4 "some review" = .ok "" ∧
    ¬ ("<think>internal reasoning</think>" : String) = "" ∧
    (classifyReviews failTranslateOracle
        (fun _ rt tx => openaiClassify thinkOnlyBackend rt tx)
        [⟨4, "en", "some review", none, none⟩]).map (fun r => r.classification) =
      [some ""] := by
  refine ⟨by rfl, by decide, by rfl⟩

/-- Claim C2 (amended): the classification stage never aborts (it yields
exactly one output row per input row); whenever the classify call for a
row fails — also after a failed translation — that row's classification
is set to the literal `"Other"`; and every row leaves the stage with a
non-null classification, which is moreover non-empty PROVIDED every
successful classify result is a non-empty string (a backend answer that
is a pure reasoning block violates that proviso, see the
counterexample). -/
theorem classify_reviews_never_aborts (tOr : TranslateOracle) (cOr : ClassifyOracle)
    (revs : List PipelineRow)
    (hne : ∀ i rt tx s, cOr i rt tx = .ok s → ¬ s = "") :
    (classifyReviews tOr cOr revs).length = revs.length ∧
    (∀ i r e, revs[i]? = some r →
      cOr i r.starRating (textForClassification tOr i r) = .error e →
      ((classifyReviews tOr cOr revs)[i]?).map (fun rr => rr.classification) =
        some (some "Other")) ∧
    (∀ rr ∈ classifyReviews tOr cOr revs, ∃ s, rr.classification = some s ∧ ¬ s = "") := by
  refine ⟨classifyReviewsGo_length tOr cOr 0 revs, ?_, ?_⟩
  · intro i r e hrow herr
    rw [classifyReviews, classifyReviewsGo_getElem tOr cOr 0 i revs, hrow]
    simp only [Nat.zero_add, Option.map_some']
    rw [processReview_classification, herr]
  · intro rr hmem
    obtain ⟨j, r, _, heq⟩ := classifyReviewsGo_mem tOr cOr 0 revs rr hmem
    subst heq
    rw [processReview_classification]
    cases h : cOr j r.starRating (textForClassification tOr j r) with
    | ok s => exact ⟨s, rfl, hne j r.starRating (textForClassification tOr j r) s h⟩
    | error e => exact ⟨"Other", rfl, by decide⟩

/-- Witness for the amended C2: a two-row batch where translation always
fails and classification fails for the first row: the stage still
produces two rows and the first row's classification is `"Other"`. -/
theorem classify_reviews_never_aborts_witness :
    (classifyReviews failTranslateOracle mixedClassifyOracle
      [⟨1, "de", "kaputt", none, none⟩, ⟨5, "en", "good", none, none⟩]).length = 2 ∧
    ((classifyReviews failTranslateOracle mixedClassifyOracle
        [⟨1, "de", "kaputt", none, none⟩, ⟨5, "en", "good", none, none⟩])[0]?).map
      (fun rr => rr.classification) = some (some "Other") := by
  have hne : ∀ i rt tx s, mixedClassifyOracle i rt tx = .ok s → ¬ s = "" := by
    intro i rt tx s h
    unfold mixedClassifyOracle at h
    split at h
    · exact absurd h (by simp)
    · injection h with h
      subst h
      decide
  have h := classify_reviews_never_aborts failTranslateOracle mixedClassifyOracle
    [⟨1, "de", "kaputt", none, none⟩, ⟨5, "en", "good", none, none⟩] hne
  exact ⟨h.1.trans (by rfl),
    h.2.1 0 ⟨1, "de", "kaputt", none, none⟩ "down" (by rfl) (by rfl)⟩

/-! ### C1 — what happens after a successful classify call -/

/-- Claim C1 (counterexample): the claim says that after a successful
classify call the loop reconciles the stored classification with the
entities detected in the raw review text (and then runs the advisory
consistency check).  For the review text "youtube keeps buffering"
classified as `"Slow"`, reconciliation would store a classification
containing `"YouTube"` (`enhance` yields `"Slow, YouTube"`), but the
loop stores the raw `"Slow"` unchanged: neither
`enhance_classification_with_websites` nor
`validate_classification_logic` is invoked anywhere in
`classify_reviews`. -/
theorem classification_not_reconciled :
    (classifyReviews failTranslateOracle (fun _ _ _ => Except.ok "Slow")
        [⟨1, "en", "youtube keeps buffering", none, none⟩]).map
      (fun r => r.classification) = [some "Slow"] ∧
    enhanceClassificationWithWebsites "Slow" "youtube keeps buffering" = "Slow, YouTube" ∧
    ¬ (("Slow" : String) = "Slow, YouTube") := by
  refine ⟨by rfl, by rfl, by decide⟩

/-- Claim C1 (amended): when the classify call for a row succeeds, the
loop stores the gateway's result string itself — unreconciled and
unmodified; the only further call is the advisory
`validate_classification`, whose result is merely logged.  (The
entity-detection reconciliation and the rating/classification
consistency check exist in the codebase but are never invoked by the
loop; see the counterexample.) -/
theorem classify_success_stores_raw_label (tOr : TranslateOracle) (cOr : ClassifyOracle)
    (revs : List PipelineRow) (i : Nat) (r : PipelineRow) (s : String)
    (hrow : revs[i]? = some r)
    (hcls : cOr i r.starRating (textForClassification tOr i r) = .ok s) :
    ((classifyReviews tOr cOr revs)[i]?).map (fun rr => rr.classification) =
      some (some s) := by
  rw [classifyReviews, classifyReviewsGo_getElem tOr cOr 0 i revs, hrow]
  simp only [Nat.zero_add, Option.map_some']
  rw [processReview_classification, hcls]

/-- Witness for the amended C1 at a concrete successful classification. -/
theorem classify_success_stores_raw_label_witness :
    ((classifyReviews failTranslateOracle (fun _ _ _ => Except.ok "Crash")
        [⟨2, "en", "it crashes", none, none⟩])[0]?).map
      (fun rr => rr.classification) = some (some "Crash") :=
  classify_success_stores_raw_label failTranslateOracle (fun _ _ _ => Except.ok "Crash")
    [⟨2, "en", "it crashes", none, none⟩] 0 ⟨2, "en", "it crashes", none, none⟩ "Crash"
    (by rfl) (by rfl)

/-! ### C6 — row-level validation -/

theorem filter_not_isEmpty (l : List String) (p : String → Bool) :
    (l.filter (fun c => !(p c))).isEmpty = l.all p := by
  induction l with
  | nil => rfl
  | cons c cs ih =>
    cases hc : p c <;> simp [List.filter_cons, hc, ih, List.all_cons]

theorem validate_filter_chain (parseTs : String → Option Nat) (rows : List RawRow) :
    List.map Prod.snd (List.filter (fun p => p.1.isSome)
        (List.map (coerceRow parseTs) (List.filter textValid (List.filter ratingValid rows)))) =
      List.map (fun r => (coerceRow parseTs r).2) (List.filter (keepRow parseTs) rows) := by
  induction rows with
  | nil => rfl
  | cons r rs ih =>
    by_cases h1 : ratingValid r = true
    · by_cases h2 : textValid r = true
      · by_cases h3 : (parseTs r.reviewSubmitDateAndTime).isSome = true
        · have h3c : ((coerceRow parseTs r).1).isSome = true := h3
          have hk : keepRow parseTs r = true := by simp [keepRow, h1, h2, h3]
          rw [List.filter_cons_of_pos h1, List.filter_cons_of_pos h2, List.map_cons,
            @List.filter_cons_of_pos _ (fun q => q.1.isSome) (coerceRow parseTs r) _ h3c,
            List.map_cons, List.filter_cons_of_pos hk, List.map_cons, ih]
        · have h3c : ¬ ((coerceRow parseTs r).1).isSome = true := h3
          have hk : ¬ keepRow parseTs r = true := by simp [keepRow, h1, h2, h3]
          rw [List.filter_cons_of_pos h1, List.filter_cons_of_pos h2, List.map_cons,
            @List.filter_cons_of_neg _ (fun q => q.1.isSome) (coerceRow parseTs r) _ h3c,
            List.filter_cons_of_neg hk, ih]
      · have hk : ¬ keepRow parseTs r = true := by simp [keepRow, h2]
        rw [List.filter_cons_of_pos h1, List.filter_cons_of_neg h2,
          List.filter_cons_of_neg hk, ih]
    · have hk : ¬ keepRow parseTs r = true := by simp [keepRow, h1]
      rw [List.filter_cons_of_neg h1, List.filter_cons_of_neg hk, ih]

/-- Claim C6: when all required columns are present, row validation
returns exactly the rows passing the three row checks (rating in [1,5],
text present and non-blank after trimming, parseable timestamp), never
adding rows, in order, reindexed densely from 0; when a required column
is missing it fails for the whole batch with an error naming the missing
columns. -/
theorem validate_review_data_spec (parseTs : String → Option Nat) (df : ReviewFrame) :
    (requiredColumns.all (fun c => df.cols.contains c) = true →
      validateReviewData parseTs df =
        .ok (((df.rows.filter (keepRow parseTs)).map
          (fun r => (coerceRow parseTs r).2)).enum) ∧
      (df.rows.filter (keepRow parseTs)).length ≤ df.rows.length ∧
      (((df.rows.filter (keepRow parseTs)).map
          (fun r => (coerceRow parseTs r).2)).enum.map Prod.fst =
        List.range ((df.rows.filter (keepRow parseTs)).map
          (fun r => (coerceRow parseTs r).2)).length)) ∧
    (requiredColumns.all (fun c => df.cols.contains c) = false →
      validateReviewData parseTs df =
        .error (requiredColumns.filter (fun c => !(df.cols.contains c)))) := by
  constructor
  · intro hall
    have hempty : (requiredColumns.filter (fun c => !(df.cols.contains c))).isEmpty = true := by
      rw [filter_not_isEmpty requiredColumns (fun c => df.cols.contains c), hall]
    refine ⟨?_, List.length_filter_le _ _, List.enum_map_fst _⟩
    simp only [validateReviewData, hempty, if_true]
    cases hrows : df.rows with
    | nil => simp [keepRow]
    | cons r0 rest =>
      simp only [List.isEmpty_cons, Bool.false_eq_true, if_false]
      rw [validate_filter_chain]
  · intro hall
    have hne : (requiredColumns.filter (fun c => !(df.cols.contains c))).isEmpty = false := by
      rw [filter_not_isEmpty requiredColumns (fun c => df.cols.contains c), hall]
    simp only [validateReviewData, hne, Bool.false_eq_true, if_false]

/-- Witness for C6 on a four-row batch with all required columns: the
bad-rating, blank-text and bad-timestamp rows are dropped and the single
survivor is reindexed to 0 with its timestamp parsed. -/
theorem validate_review_data_witness :
    validateReviewData parseDate
      ⟨requiredColumns,
       [⟨"p", "v", "en", "d", "2024-01-03", 5, some "nice", "l"⟩,
        ⟨"p", "v", "en", "d", "2024-01-03", 6, some "bad rating", "l"⟩,
        ⟨"p", "v", "en", "d", "2024-01-03", 4, some "   ", "l"⟩,
        ⟨"p", "v", "en", "d", "not-a-date", 4, some "ok", "l"⟩]⟩ =
      .ok [(0, ⟨"p", "v", "en", "d", 738887, 5, some "nice", "l"⟩)] := by
  have h := (validate_review_data_spec parseDate
    ⟨requiredColumns,
     [⟨"p", "v", "en", "d", "2024-01-03", 5, some "nice", "l"⟩,
      ⟨"p", "v", "en", "d", "2024-01-03", 6, some "bad rating", "l"⟩,
      ⟨"p", "v", "en", "d", "2024-01-03", 4, some "   ", "l"⟩,
      ⟨"p", "v", "en", "d", "not-a-date", 4, some "ok", "l"⟩]⟩).1 (by decide)
  exact h.1.trans (by rfl)

/-! ### C5 — summary counting -/

theorem summaryStep_fst (acc : Nat × Nat × (Int → Nat)) (r : SummaryRow) :
    (summaryStep acc r).1 = acc.1 + (if isPositiveReview r then 1 else 0) := by
  simp only [summaryStep, isPositiveReview]
  split_ifs <;> simp_all

theorem summaryStep_snd (acc : Nat × Nat × (Int → Nat)) (r : SummaryRow) :
    (summaryStep acc r).2.1 = acc.2.1 + (if isNegativeReview r then 1 else 0) := by
  simp only [summaryStep, isNegativeReview, isPositiveReview]
  split_ifs <;> simp_all <;> omega

theorem summaryStep_ratings (acc : Nat × Nat × (Int → Nat)) (r : SummaryRow)
    (k : Int) (h1 : 1 ≤ k) (h5 : k ≤ 5) :
    (summaryStep acc r).2.2 k = acc.2.2 k + (if r.starRating == k then 1 else 0) := by
  have hrc : (summaryStep acc r).2.2 =
      (if 1 ≤ r.starRating && r.starRating ≤ 5 then
        fun j => if j == r.starRating then acc.2.2 j + 1 else acc.2.2 j
      else acc.2.2) := by
    simp only [summaryStep]
    split_ifs <;> rfl
  rw [hrc]
  by_cases hin : 1 ≤ r.starRating ∧ r.starRating ≤ 5
  · have hc : (decide (1 ≤ r.starRating) && decide (r.starRating ≤ 5)) = true := by
      simp [hin.1, hin.2]
    rw [if_pos hc]
    by_cases heq : k = r.starRating
    · subst heq
      simp
    · have heq2 : ¬ r.starRating = k := fun h => heq h.symm
      simp [beq_iff_eq, heq, heq2]
  · have hne2 : ¬ r.starRating = k := by omega
    have hc : (decide (1 ≤ r.starRating) && decide (r.starRating ≤ 5)) = false := by
      rcases not_and_or.mp hin with h | h <;> simp [h]
    simp only [hc, Bool.false_eq_true, if_false]
    simp [beq_iff_eq, hne2]

theorem summary_loop_spec (revs : List SummaryRow) :
    ∀ (acc : Nat × Nat × (Int → Nat)),
      ((revs.foldl summaryStep acc).1 = acc.1 + revs.countP isPositiveReview) ∧
      ((revs.foldl summaryStep acc).2.1 = acc.2.1 + revs.countP isNegativeReview) ∧
      (∀ k : Int, 1 ≤ k → k ≤ 5 →
        (revs.foldl summaryStep acc).2.2 k =
          acc.2.2 k + revs.countP (fun r => r.starRating == k)) := by
  induction revs with
  | nil => intro acc; simp
  | cons r rs ih =>
    intro acc
    simp only [List.foldl_cons]
    obtain ⟨ihp, ihn, ihr⟩ := ih (summaryStep acc r)
    refine ⟨?_, ?_, ?_⟩
    · rw [ihp, summaryStep_fst, List.countP_cons]
      omega
    · rw [ihn, summaryStep_snd, List.countP_cons]
      omega
    · intro k hk1 hk5
      rw [ihr k hk1 hk5, summaryStep_ratings _ _ k hk1 hk5, List.countP_cons]
      omega

theorem countP_pos_neg_neither (revs : List SummaryRow) :
    revs.countP isPositiveReview + revs.countP isNegativeReview +
      revs.countP (fun r => !isPositiveReview r && !isNegativeReview r) = revs.length := by
  induction revs with
  | nil => rfl
  | cons r rs ih =>
    simp only [List.countP_cons, List.length_cons]
    cases hp : isPositiveReview r
    · cases hn : isNegativeReview r <;> simp [hp, hn] <;> omega
    · have hn : isNegativeReview r = false := by simp [isNegativeReview, hp]
      simp [hp, hn]
      omega

theorem ratings_histogram_total (revs : List SummaryRow) :
    (∀ r ∈ revs, 1 ≤ r.starRating ∧ r.starRating ≤ 5) →
    revs.countP (fun r => r.starRating == 1) + revs.countP (fun r => r.starRating == 2)
      + revs.countP (fun r => r.starRating == 3) + revs.countP (fun r => r.starRating == 4)
      + revs.countP (fun r => r.starRating == 5) = revs.length := by
  induction revs with
  | nil => intro _; rfl
  | cons r rs ih =>
    intro h
    have hr := h r (List.mem_cons_self r rs)
    have hrs := ih (fun x hx => h x (List.mem_cons_of_mem r hx))
    simp only [List.countP_cons, List.length_cons]
    have : r.starRating = 1 ∨ r.starRating = 2 ∨ r.starRating = 3 ∨
        r.starRating = 4 ∨ r.starRating = 5 := by omega
    rcases this with h1 | h1 | h1 | h1 | h1 <;> simp [h1] <;> omega

/-- Claim C5: the summary entry counts each review exactly once,
independently of the grouped report's fan-out, by the fixed precedence
(whole label `"Satisfied"` case-insensitively → positive; else rating at
most 3 → negative; else label other than `"Other"` case-insensitively →
negative; else neither bucket), and the rating histogram counts each
review once under its star rating. -/
theorem create_summary_entry_counts {α : Type} (reviews : List SummaryRow)
    (groupedData : List (String × List α)) (startDate endDate : String) :
    ((createSummaryEntry reviews groupedData startDate endDate).positiveCount =
      reviews.countP isPositiveReview) ∧
    ((createSummaryEntry reviews groupedData startDate endDate).negativeCount =
      reviews.countP isNegativeReview) ∧
    (∀ k : Int, 1 ≤ k → k ≤ 5 →
      (createSummaryEntry reviews groupedData startDate endDate).ratings k =
        reviews.countP (fun r => r.starRating == k)) ∧
    ((createSummaryEntry reviews groupedData startDate endDate).positiveCount +
      (createSummaryEntry reviews groupedData startDate endDate).negativeCount +
      reviews.countP (fun r => !isPositiveReview r && !isNegativeReview r) =
        reviews.length) ∧
    ((∀ r ∈ reviews, 1 ≤ r.starRating ∧ r.starRating ≤ 5) →
      (createSummaryEntry reviews groupedData startDate endDate).ratings 1 +
      (createSummaryEntry reviews groupedData startDate endDate).ratings 2 +
      (createSummaryEntry reviews groupedData startDate endDate).ratings 3 +
      (createSummaryEntry reviews groupedData startDate endDate).ratings 4 +
      (createSummaryEntry reviews groupedData startDate endDate).ratings 5 =
        reviews.length) := by
  obtain ⟨hp, hn, hr⟩ := summary_loop_spec reviews (0, 0, fun _ => 0)
  have hpc : (createSummaryEntry reviews groupedData startDate endDate).positiveCount =
      reviews.countP isPositiveReview := by
    simpa [createSummaryEntry] using hp
  have hnc : (createSummaryEntry reviews groupedData startDate endDate).negativeCount =
      reviews.countP isNegativeReview := by
    simpa [createSummaryEntry] using hn
  have hrc : ∀ k : Int, 1 ≤ k → k ≤ 5 →
      (createSummaryEntry reviews groupedData startDate endDate).ratings k =
        reviews.countP (fun r => r.starRating == k) := by
    intro k hk1 hk5
    simpa [createSummaryEntry] using hr k hk1 hk5
  refine ⟨hpc, hnc, hrc, ?_, ?_⟩
  · rw [hpc, hnc]
    exact countP_pos_neg_neither reviews
  · intro hrange
    rw [hrc 1 (by omega) (by omega), hrc 2 (by omega) (by omega),
      hrc 3 (by omega) (by omega), hrc 4 (by omega) (by omega),
      hrc 5 (by omega) (by omega)]
    exact ratings_histogram_total reviews hrange

/-- Witness for C5 on the specification's own examples: a 5-star
`"Satisfied"` review is positive, a 2-star `"Crash"` review is negative,
a 5-star `"Other"` review lands in neither bucket, and the histogram
counts each of the three reviews once. -/
theorem create_summary_entry_counts_witness :
    ((createSummaryEntry [⟨5, "Satisfied"⟩, ⟨2, "Crash"⟩, ⟨5, "Other"⟩]
        ([] : List (String × List Unit)) "2024-01-01" "2024-01-07").positiveCount = 1) ∧
    ((createSummaryEntry [⟨5, "Satisfied"⟩, ⟨2, "Crash"⟩, ⟨5, "Other"⟩]
        ([] : List (String × List Unit)) "2024-01-01" "2024-01-07").negativeCount = 1) ∧
    ((createSummaryEntry [⟨5, "Satisfied"⟩, ⟨2, "Crash"⟩, ⟨5, "Other"⟩]
        ([] : List (String × List Unit)) "2024-01-01" "2024-01-07").ratings 5 = 2) ∧
    ((createSummaryEntry [⟨5, "Satisfied"⟩, ⟨2, "Crash"⟩, ⟨5, "Other"⟩]
        ([] : List (String × List Unit)) "2024-01-01" "2024-01-07").ratings 1 +
      (createSummaryEntry [⟨5, "Satisfied"⟩, ⟨2, "Crash"⟩, ⟨5, "Other"⟩]
        ([] : List (String × List Unit)) "2024-01-01" "2024-01-07").ratings 2 +
      (createSummaryEntry [⟨5, "Satisfied"⟩, ⟨2, "Crash"⟩, ⟨5, "Other"⟩]
        ([] : List (String × List Unit)) "2024-01-01" "2024-01-07").ratings 3 +
      (createSummaryEntry [⟨5, "Satisfied"⟩, ⟨2, "Crash"⟩, ⟨5, "Other"⟩]
        ([] : List (String × List Unit)) "2024-01-01" "2024-01-07").ratings 4 +
      (createSummaryEntry [⟨5, "Satisfied"⟩, ⟨2, "Crash"⟩, ⟨5, "Other"⟩]
        ([] : List (String × List Unit)) "2024-01-01" "2024-01-07").ratings 5 = 3) := by
  have h := create_summary_entry_counts [⟨5, "Satisfied"⟩, ⟨2, "Crash"⟩, ⟨5, "Other"⟩]
    ([] : List (String × List Unit)) "2024-01-01" "2024-01-07"
  exact ⟨h.1.trans (by decide), h.2.1.trans (by decide),
    (h.2.2.1 5 (by decide) (by decide)).trans (by decide),
    (h.2.2.2.2 (by decide)).trans (by decide)⟩

/-! ### C7 — entity-detection reconciliation -/

theorem dedupFirst_nodup (l : List String) : (dedupFirst l).Nodup := by
  induction l with
  | nil => exact List.nodup_nil
  | cons x xs ih =>
    simp only [dedupFirst]
    rw [List.nodup_cons]
    constructor
    · intro hmem
      have h2 := (List.mem_filter.mp hmem).2
      simp at h2
    · exact List.Nodup.filter _ ih

theorem filterMap_if_eq {β : Type} (p : String × β → Bool) (l : List (String × β)) :
    l.filterMap (fun wp => if p wp then some wp.1 else none) =
      (l.filter p).map Prod.fst := by
  induction l with
  | nil => rfl
  | cons x xs ih =>
    by_cases h : p x = true
    · rw [List.filterMap_cons, List.filter_cons_of_pos h, List.map_cons, ← ih]
      simp [h]
    · rw [List.filterMap_cons, List.filter_cons_of_neg h, ← ih]
      simp [h]

theorem detectWebsitesInText_nodup (t : String) : (detectWebsitesInText t).Nodup := by
  simp only [detectWebsitesInText]
  split
  · exact List.nodup_nil
  · rw [filterMap_if_eq]
    have hnames : (websitePatterns.map Prod.fst).Nodup := by
      have hfst : websitePatterns.map Prod.fst =
          ["YouTube", "Facebook", "Instagram", "Twitter", "TikTok", "Netflix", "Reddit",
           "Google", "Amazon", "WhatsApp", "Spotify", "Discord", "Twitch", "LinkedIn",
           "Pinterest"] := by rfl
      rw [hfst]
      decide
    exact List.Nodup.sublist (List.Sublist.map Prod.fst (List.filter_sublist _)) hnames

/-- Claim C7 (counterexample): the claim quantifies over EVERY
classification string, but for the empty classification the source's
`if not classification or not review_text` short-circuit returns the
classification unchanged even though the detected-minus-current
difference is non-empty: with text `"youtube keeps buffering"` the
difference is `["YouTube"]`, yet `enhance` returns `""`, not the
appended string. -/
theorem enhance_empty_counterexample :
    missingTokens "" "youtube keeps buffering" = ["YouTube"] ∧
    enhanceClassificationWithWebsites "" "youtube keeps buffering" = "" ∧
    ¬ (("" : String) = String.intercalate ", "
        (currentTokens "" ++ missingTokens "" "youtube keeps buffering")) := by
  refine ⟨by rfl, by rfl, by decide⟩

/-- Claim C7 (amended): the missing set is always `detected - current`;
when the classification or the text is empty, `enhance` returns the
classification unchanged (even if the difference is non-empty); for
non-empty classification and text, an empty difference leaves the
classification unchanged and a non-empty one yields the existing tokens
followed by the missing entity names — existing group first, then the
newly detected group, with no duplicates anywhere — joined with `", "`;
in particular classification `"Slow"` with a text containing
`"youtube keeps buffering"` yields `"Slow, YouTube"` (see the
witness). -/
theorem enhance_appends_missing_detected (c t : String) :
    (∀ w, w ∈ missingTokens c t ↔ (w ∈ detectWebsitesInText t ∧ ¬ w ∈ currentTokens c)) ∧
    ((c = "" ∨ t = "") → enhanceClassificationWithWebsites c t = c) ∧
    (¬ c = "" → ¬ t = "" →
      (missingTokens c t = [] → enhanceClassificationWithWebsites c t = c) ∧
      (¬ missingTokens c t = [] →
        enhanceClassificationWithWebsites c t =
          String.intercalate ", " (currentTokens c ++ missingTokens c t) ∧
        (currentTokens c ++ missingTokens c t).Nodup)) := by
  have hmemiff : ∀ w, w ∈ missingTokens c t ↔
      (w ∈ detectWebsitesInText t ∧ ¬ w ∈ currentTokens c) := by
    intro w
    simp only [missingTokens, List.mem_filter, Bool.not_eq_true']
    constructor
    · rintro ⟨hdet, hcont⟩
      refine ⟨hdet, fun hmem => ?_⟩
      have h2 : (currentTokens c).contains w = true := List.elem_eq_true_of_mem hmem
      exact Bool.noConfusion (h2.symm.trans hcont)
    · rintro ⟨hdet, hnmem⟩
      refine ⟨hdet, ?_⟩
      cases hcont : (currentTokens c).contains w
      · rfl
      · exact absurd (List.mem_of_elem_eq_true hcont) hnmem
  refine ⟨hmemiff, ?_, ?_⟩
  · rintro (h | h) <;> simp [enhanceClassificationWithWebsites, h]
  · intro hc ht
    have hcc : (c == "") = false := by simp [hc]
    have htt : (t == "") = false := by simp [ht]
    constructor
    · intro hm
      simp [enhanceClassificationWithWebsites, hcc, htt, hm]
    · intro hm
      have hne : (missingTokens c t).isEmpty = false := by
        cases hmt : missingTokens c t
        · exact absurd hmt hm
        · rfl
      constructor
      · simp [enhanceClassificationWithWebsites, hcc, htt, hne]
      · rw [List.nodup_append]
        refine ⟨dedupFirst_nodup _, List.Nodup.filter _ (detectWebsitesInText_nodup t), ?_⟩
        intro a ha hamem
        exact ((hmemiff a).mp hamem).2 ha

/-- Witness for the amended C7: the specification's own example —
classification `"Slow"` with text `"youtube keeps buffering"` is
enhanced to `"Slow, YouTube"`, which contains both tokens — and the
empty-classification short-circuit returning the input unchanged. -/
theorem enhance_appends_missing_detected_witness :
    enhanceClassificationWithWebsites "Slow" "youtube keeps buffering" = "Slow, YouTube" ∧
    enhanceClassificationWithWebsites "" "netflix down" = "" := by
  constructor
  · have h := ((enhance_appends_missing_detected "Slow" "youtube keeps buffering").2.2
      (by decide) (by decide)).2 (by decide)
    exact h.1.trans (by decide)
  · exact (enhance_appends_missing_detected "" "netflix down").2.1 (Or.inl rfl)

/-! ### C8 — the entity-token structural predicates -/

theorem Char_isUpper_isAlphanum {ch : Char} (h : ch.isUpper = true) :
    ch.isAlphanum = true := by
  simp [Char.isAlphanum, Char.isAlpha, h]

theorem Char_isWhitespace_cases {ch : Char} (h : ch.isWhitespace = true) :
    ch = ' ' ∨ ch = '\t' ∨ ch = '\r' ∨ ch = '\n' := by
  simpa [Char.isWhitespace, or_assoc] using h

theorem Char_isAlphanum_not_ws {ch : Char} (h : ch.isAlphanum = true) :
    ch.isWhitespace = false := by
  cases hw : ch.isWhitespace
  · rfl
  · rcases Char_isWhitespace_cases hw with h1 | h1 | h1 | h1 <;> subst h1 <;>
      exact absurd h (by decide)

theorem entity_body_iff (c0 : Char) (rest : List Char) (extra : List Char)
    (filtered : List Char)
    (hmem : ∀ ch, ch ∈ filtered ↔ (ch ∈ (c0 :: rest) ∧ ¬ ch ∈ extra))
    (hextra_not_upper : ∀ d ∈ extra, d.isUpper = false)
    (hextra_not_ws : ∀ d ∈ extra, d.isWhitespace = false)
    (hextra_not_space : ¬ (' ' ∈ extra)) :
    (c0.isUpper && !((c0 :: rest).contains ' ') &&
      decide (2 ≤ (c0 :: rest).length) && decide ((c0 :: rest).length ≤ 20) &&
      pyIsAlnum filtered) = true ↔
    (2 ≤ (c0 :: rest).length ∧ (c0 :: rest).length ≤ 20 ∧
      (c0 :: rest).head?.map Char.isUpper = some true ∧
      (∀ ch ∈ (c0 :: rest), ch.isWhitespace = false) ∧
      (∀ ch ∈ (c0 :: rest), ch.isAlphanum = true ∨ ch ∈ extra)) := by
  constructor
  · intro h
    rw [Bool.and_eq_true, Bool.and_eq_true, Bool.and_eq_true, Bool.and_eq_true] at h
    obtain ⟨⟨⟨⟨hup, _⟩, h2⟩, h20⟩, haln⟩ := h
    rw [pyIsAlnum, Bool.and_eq_true] at haln
    obtain ⟨_, hall⟩ := haln
    rw [List.all_eq_true] at hall
    refine ⟨of_decide_eq_true h2, of_decide_eq_true h20, by simp [hup], ?_, ?_⟩
    · intro ch hch
      by_cases hex : ch ∈ extra
      · exact hextra_not_ws ch hex
      · exact Char_isAlphanum_not_ws (hall ch ((hmem ch).mpr ⟨hch, hex⟩))
    · intro ch hch
      by_cases hex : ch ∈ extra
      · exact Or.inr hex
      · exact Or.inl (hall ch ((hmem ch).mpr ⟨hch, hex⟩))
  · rintro ⟨h2, h20, hhead, _, halx⟩
    have hup : c0.isUpper = true := by simpa using hhead
    have hapos : ∀ ch ∈ filtered, ch.isAlphanum = true := by
      intro ch hch
      obtain ⟨hchl, hex⟩ := (hmem ch).mp hch
      rcases halx ch hchl with h | h
      · exact h
      · exact absurd h hex
    have hc0f : c0 ∈ filtered := by
      refine (hmem c0).mpr ⟨List.mem_cons_self _ _, fun hex => ?_⟩
      have hfalse := hextra_not_upper c0 hex
      rw [hup] at hfalse
      exact Bool.noConfusion hfalse
    have hspace : ((c0 :: rest).contains ' ') = false := by
      cases hcont : (c0 :: rest).contains ' '
      · rfl
      · have hmemsp : ' ' ∈ c0 :: rest := List.mem_of_elem_eq_true hcont
        rcases halx ' ' hmemsp with h | h
        · exact absurd h (by decide)
        · exact absurd h hextra_not_space
    rw [Bool.and_eq_true, Bool.and_eq_true, Bool.and_eq_true, Bool.and_eq_true]
    refine ⟨⟨⟨⟨hup, by rw [hspace]; rfl⟩, decide_eq_true h2⟩, decide_eq_true h20⟩, ?_⟩
    rw [pyIsAlnum, Bool.and_eq_true]
    refine ⟨?_, List.all_eq_true.mpr hapos⟩
    cases hf : filtered
    · rw [hf] at hc0f
      exact absurd hc0f (List.not_mem_nil c0)
    · rfl

/-- Claim C8 (counterexample): the claim says ONE structural predicate,
used both for grouping and for validating model output, accepts exactly
the tokens that start uppercase, contain no whitespace, have length 2-20
and consist of alphanumerics plus `'.'` and `'-'`.  The token `"E-s"`
satisfies that rule and is accepted by the grouping predicate
(utils.`_is_valid_website_category`), but the validation predicate
(validation.`_is_website_category`) deletes only `'.'` before its
alphanumeric check and rejects it. -/
theorem website_predicates_disagree :
    isValidWebsiteCategory "E-s" = true ∧
    isWebsiteCategory "E-s" = false ∧
    entityTokenSpec ['.', '-'] "E-s" := by
  refine ⟨by decide, by decide, ?_⟩
  unfold entityTokenSpec
  decide

/-- Claim C8 (amended): the grouping predicate
(`_is_valid_website_category`) accepts a token exactly when it satisfies
the stated structural rule with tolerated extra characters `'.'` and
`'-'`; the validation predicate (`_is_website_category`) accepts exactly
the same rule restricted to `'.'` only, so the two predicates genuinely
differ on tokens containing `'-'`. -/
theorem website_category_predicates (s : String) :
    (isValidWebsiteCategory s = true ↔ entityTokenSpec ['.', '-'] s) ∧
    (isWebsiteCategory s = true ↔ entityTokenSpec ['.'] s) := by
  constructor
  · rcases hl : s.data with _ | ⟨c0, rest⟩ <;>
      simp only [isValidWebsiteCategory, entityTokenSpec, hl]
    · simp
    · have hmem : ∀ ch, ch ∈ pyDeleteChar (pyDeleteChar (c0 :: rest) '.') '-' ↔
          (ch ∈ (c0 :: rest) ∧ ¬ ch ∈ (['.', '-'] : List Char)) := by
        intro ch
        simp only [pyDeleteChar, List.mem_filter, bne_iff_ne, List.mem_cons,
          List.mem_singleton, List.not_mem_nil]
        constructor
        · rintro ⟨⟨hin, hdot⟩, hdash⟩
          exact ⟨hin, fun hor => by rcases hor with h | h | h <;> simp_all⟩
        · rintro ⟨hin, hnor⟩
          exact ⟨⟨hin, fun h => hnor (Or.inl h)⟩, fun h => hnor (Or.inr (Or.inl h))⟩
      exact entity_body_iff c0 rest ['.', '-'] _ hmem (by decide) (by decide) (by decide)
  · rcases hl : s.data with _ | ⟨c0, rest⟩ <;>
      simp only [isWebsiteCategory, entityTokenSpec, hl]
    · simp
    · have hmem : ∀ ch, ch ∈ pyDeleteChar (c0 :: rest) '.' ↔
          (ch ∈ (c0 :: rest) ∧ ¬ ch ∈ (['.'] : List Char)) := by
        intro ch
        simp [pyDeleteChar, List.mem_filter, bne_iff_ne]
      exact entity_body_iff c0 rest ['.'] _ hmem (by decide) (by decide) (by decide)

end PlayStore
